import Mathlib

/-!
Verification of the NES emulator core (bus, CPU, PPU) against its
natural-language specification.  The definitions below are a shallow
embedding of the Rust sources: machine integers are modelled as `Nat`
with explicit `% 2 ^ w` where the source wraps, and operations whose
source can panic (array indexing out of bounds, overflow of plain
`+` / `-` on unsigned integers, `panic!` / `todo!` / `unimplemented!`
arms) return `Option`, with `none` standing for the aborted access.
-/

namespace Nes

/-- Reinterpret a byte (a `Nat` below 256) as a signed 8-bit integer,
the meaning of `as i8` in the source. -/
def toI8 (n : Nat) : Int := if n < 128 then (n : Int) else (n : Int) - 256

/-- Reinterpret a 16-bit word as a signed 16-bit integer (`as i16`). -/
def toI16 (n : Nat) : Int := if n < 32768 then (n : Int) else (n : Int) - 65536

/-- Reinterpret a signed integer as a 16-bit word (`as u16`). -/
def toU16 (i : Int) : Nat := (i % 65536).toNat

/-! ## PPU data model (src/ppu.rs) -/

/-- Nametable mirroring mode (src/rom.rs). -/
inductive Mirroring where
  | Horizontal
  | Vertical
  | FourScreen
deriving DecidableEq, Repr

/-- Cartridge mapper (src/rom.rs); only mapper zero is supported. -/
inductive Mapper where
  | Zero
deriving DecidableEq, Repr

/-- Parsed cartridge image (src/rom.rs). -/
structure Rom where
  program_rom : List Nat
  character_rom : List Nat
  mirroring : Mirroring
  mapper : Mapper

/-- Scroll register with its write toggle (src/ppu.rs `ScrollRegister`). -/
structure ScrollRegister where
  x_scroll : Nat
  y_scroll : Nat
  x_scroll_active : Bool

/-- First write sets x, second sets y, toggling each time. -/
def ScrollRegister.update (r : ScrollRegister) (value : Nat) : ScrollRegister :=
  let r' := if r.x_scroll_active then { r with x_scroll := value }
            else { r with y_scroll := value }
  { r' with x_scroll_active := !r'.x_scroll_active }

def ScrollRegister.reset_latch (r : ScrollRegister) : ScrollRegister :=
  { r with x_scroll_active := true }

/-- Two-write VRAM address register (src/ppu.rs `AddressRegister`). -/
structure AddressRegister where
  high_byte : Nat
  low_byte : Nat
  high_byte_active : Bool

/-- `u16::from_be_bytes([high_byte, low_byte])`. -/
def AddressRegister.get (r : AddressRegister) : Nat := r.high_byte * 256 + r.low_byte

/-- `to_be_bytes` split of a 16-bit value into the two stored bytes. -/
def AddressRegister.set (r : AddressRegister) (value : Nat) : AddressRegister :=
  { r with high_byte := value / 256, low_byte := value % 256 }

/-- Mask `& 0b0011_1111_1111_1111`, i.e. mod `0x4000`: mirror the
address down into `[0, 0x4000)`. -/
def AddressRegister.mirror_down (r : AddressRegister) : AddressRegister :=
  r.set (r.get % 16384)

/-- Write one byte (high first, then low), toggling the latch and
mirroring down after each write. -/
def AddressRegister.update (r : AddressRegister) (value : Nat) : AddressRegister :=
  let r' := if r.high_byte_active then { r with high_byte := value }
            else { r with low_byte := value }
  let r' := { r' with high_byte_active := !r'.high_byte_active }
  r'.mirror_down

/-- Increment by the given amount with 16-bit wraparound, then mirror
down. -/
def AddressRegister.increment (r : AddressRegister) (amount : Nat) : AddressRegister :=
  (r.set ((r.get + amount) % 65536)).mirror_down

def AddressRegister.reset_latch (r : AddressRegister) : AddressRegister :=
  { r with high_byte_active := true }

/-- Graphics chip state (src/ppu.rs `Ppu`).  The fixed-size byte
buffers (`[u8; 2048]` video RAM, `[u8; 256]` OAM, `[u8; 32]` palette)
are modelled as total functions from index to byte; the pattern buffer
`chr_rom : Vec<u8>` keeps its length and is modelled as a list. -/
structure Ppu where
  chr_rom : List Nat
  palette_table : Nat → Nat
  vram : Nat → Nat
  oam : Nat → Nat
  mirroring : Mirroring
  control : Nat
  mask : Nat
  status : Nat
  oam_address : Nat
  scroll : ScrollRegister
  vram_address : AddressRegister
  nmi_interrupt : Bool
  data_buffer : Nat
  cycles : Nat
  scanline : Nat

/-- `ControlRegister::GENERATE_NMI` is bit 7 of the control byte. -/
def controlGenerateNmi (control : Nat) : Bool := control.testBit 7

/-- `ControlRegister::vram_address_increment_amount`: 32 when bit 2
(`VRAM_ADDRESS_INCREMENT`) is set, otherwise 1. -/
def vramAddressIncrementAmount (control : Nat) : Nat :=
  if control.testBit 2 then 32 else 1

/-- `StatusRegister::VBLANK_STARTED` is bit 7 of the status byte. -/
def statusVblank (status : Nat) : Bool := status.testBit 7

/-- Write to $2000: replace the control byte; if NMI-enable went from
off to on while VBlank-status is set, raise the interrupt request. -/
def Ppu.write_to_control (ppu : Ppu) (value : Nat) : Ppu :=
  let nmi_before_write := controlGenerateNmi ppu.control
  let nmi_after_write := controlGenerateNmi value
  let nmi' :=
    if !nmi_before_write && nmi_after_write && statusVblank ppu.status then true
    else ppu.nmi_interrupt
  { ppu with control := value, nmi_interrupt := nmi' }

/-- Write to $2001. -/
def Ppu.write_to_mask (ppu : Ppu) (value : Nat) : Ppu := { ppu with mask := value }

/-- Write to $2003. -/
def Ppu.write_to_oam_address (ppu : Ppu) (value : Nat) : Ppu :=
  { ppu with oam_address := value }

/-- Write to $2004: store at the OAM cursor, then advance it with
8-bit wraparound (`wrapping_add`). -/
def Ppu.write_to_oam_data (ppu : Ppu) (value : Nat) : Ppu :=
  { ppu with
      oam := fun i => if i = ppu.oam_address then value else ppu.oam i,
      oam_address := (ppu.oam_address + 1) % 256 }

/-- Write to $2005. -/
def Ppu.write_to_scroll (ppu : Ppu) (value : Nat) : Ppu :=
  { ppu with scroll := ppu.scroll.update value }

/-- Write to $2006. -/
def Ppu.write_to_vram_address (ppu : Ppu) (value : Nat) : Ppu :=
  { ppu with vram_address := ppu.vram_address.update value }

/-- Advance the VRAM address by the control register's configured
amount. -/
def Ppu.increment_address (ppu : Ppu) : Ppu :=
  { ppu with
      vram_address := ppu.vram_address.increment (vramAddressIncrementAmount ppu.control) }

/-- Fold a VRAM address in `[0x2000, 0x2FFF]` onto the 2 KiB physical
buffer according to the mirroring mode; the source's catch-all arm
panics (`none`), and FourScreen has no arm at all. -/
def Ppu.mirror_down_vram (ppu : Ppu) (address : Nat) : Option Nat :=
  let vram_index := address - 0x2000
  let nametable_index := vram_index / 0x400
  let nametable_offset := address % 0x400
  match ppu.mirroring, nametable_index with
  | Mirroring.Horizontal, 0 => some nametable_offset
  | Mirroring.Horizontal, 1 => some nametable_offset
  | Mirroring.Horizontal, 2 => some (0x400 + nametable_offset)
  | Mirroring.Horizontal, 3 => some (0x400 + nametable_offset)
  | Mirroring.Vertical, 0 => some nametable_offset
  | Mirroring.Vertical, 2 => some nametable_offset
  | Mirroring.Vertical, 1 => some (0x400 + nametable_offset)
  | Mirroring.Vertical, 3 => some (0x400 + nametable_offset)
  | _, _ => none

/-- Write to $2007 at the current VRAM address, then auto-increment.
Writes into the pattern-table range, the unused range `0x3000-0x3EFF`
and addresses at `0x4000` and above panic; a palette index past the
32-byte table is out of bounds. -/
def Ppu.write_to_data (ppu : Ppu) (value : Nat) : Option Ppu :=
  let address := ppu.vram_address.get
  let written :=
    if address ≤ 0x1FFF then none
    else if address ≤ 0x2FFF then
      match ppu.mirror_down_vram address with
      | none => none
      | some i => some { ppu with vram := fun j => if j = i then value else ppu.vram j }
    else if address ≤ 0x3EFF then none
    else if address ≤ 0x3FFF then
      if address - 0x3F00 < 32 then
        some { ppu with
          palette_table := fun j => if j = address - 0x3F00 then value
                                    else ppu.palette_table j }
      else none
    else none
  match written with
  | none => none
  | some p => some p.increment_address

/-- One step of the sprite-DMA copy loop: store the next byte at the
OAM cursor and advance the cursor with 8-bit wraparound. -/
def oamDmaStep (data : Nat → Nat) (j : Nat) (ppu : Ppu) : Ppu :=
  { ppu with
      oam := fun i => if i = ppu.oam_address then data j else ppu.oam i,
      oam_address := (ppu.oam_address + 1) % 256 }

/-- Copy bytes `256 - n, ..., 255` of the page into OAM. -/
def oamDmaLoop (data : Nat → Nat) : Nat → Ppu → Ppu
  | 0, ppu => ppu
  | n + 1, ppu => oamDmaLoop data n (oamDmaStep data (256 - (n + 1)) ppu)

/-- Write to $4014: copy a full 256-byte page into OAM starting at the
current OAM cursor, wrapping at 256. -/
def Ppu.write_to_oam_dma (ppu : Ppu) (data : Nat → Nat) : Ppu :=
  oamDmaLoop data 256 ppu

/-- Read $2002: return the status byte, then clear VBlank-status
(bit 7, `& 0b0111_1111`) and reset both write-toggle latches. -/
def Ppu.read_from_status (ppu : Ppu) : Nat × Ppu :=
  (ppu.status,
   { ppu with
       status := ppu.status &&& 127,
       vram_address := ppu.vram_address.reset_latch,
       scroll := ppu.scroll.reset_latch })

/-- Read $2004: the byte at the OAM cursor, no auto-increment. -/
def Ppu.read_from_oam_data (ppu : Ppu) : Nat := ppu.oam ppu.oam_address

/-- Read $2007: auto-increment first, then dispatch on the previously
current address.  Pattern-table and nametable reads go through the
one-read-delay buffer; palette reads return immediately; the unused
range and addresses `0x4000` and above panic. -/
def Ppu.read_from_data (ppu : Ppu) : Option (Nat × Ppu) :=
  let address := ppu.vram_address.get
  let ppu1 := ppu.increment_address
  if address ≤ 0x1FFF then
    if address < ppu1.chr_rom.length then
      some (ppu1.data_buffer, { ppu1 with data_buffer := ppu1.chr_rom.getD address 0 })
    else none
  else if address ≤ 0x2FFF then
    match ppu1.mirror_down_vram address with
    | none => none
    | some i => some (ppu1.data_buffer, { ppu1 with data_buffer := ppu1.vram i })
  else if address ≤ 0x3EFF then none
  else if address ≤ 0x3FFF then
    if address - 0x3F00 < 32 then some (ppu1.palette_table (address - 0x3F00), ppu1)
    else none
  else none

/-- Advance the scanline/dot counter by `cycles` PPU cycles.  Once the
accumulator reaches the 341-cycle budget it is subtracted once and the
scanline advances by one; reaching scanline 241 sets VBlank-status and
raises the interrupt request when NMI-enable is set; reaching scanline
262 resets the counter and clears both.  Returns whether a frame just
completed. -/
def Ppu.tick (ppu : Ppu) (cycles : Nat) : Ppu × Bool :=
  let p := { ppu with cycles := ppu.cycles + cycles }
  let p :=
    if 341 ≤ p.cycles then
      { p with cycles := p.cycles - 341, scanline := p.scanline + 1 }
    else p
  let p :=
    if p.scanline = 241 then
      { p with
          status := p.status ||| 128,
          nmi_interrupt := if controlGenerateNmi p.control then true else p.nmi_interrupt }
    else p
  if 262 ≤ p.scanline then
    ({ p with scanline := 0, nmi_interrupt := false, status := p.status &&& 127 }, true)
  else (p, false)

/-- One full 341-cycle scanline advance, used to iterate `tick`. -/
def tickScan (ppu : Ppu) : Ppu := (ppu.tick 341).1

/-! ## Address bus (src/bus.rs) -/

/-- The bus owns work RAM (`[u8; 2048]`, modelled as a total
function), the PPU, and the cartridge. -/
structure Bus where
  cpu_ram : Nat → Nat
  ppu : Ppu
  rom : Rom

/-- Route a read by address range: RAM mirrored down by
`& 0b0000_0111_1111_1111` (mod 2048), PPU registers mirrored down by
`& 0b0010_0000_0000_0111`, cartridge data at `0xC000-0xFFFF` with the
16-KiB single-page mirror check, everything else panics. -/
def Bus.read_u8 (bus : Bus) (address : Nat) : Option (Nat × Bus) :=
  if address ≤ 0x1FFF then
    some (bus.cpu_ram (address % 2048), bus)
  else if address ≤ 0x3FFF then
    let mirrored_down := address &&& 0x2007
    if mirrored_down = 0x2002 then
      let r := bus.ppu.read_from_status
      some (r.1, { bus with ppu := r.2 })
    else if mirrored_down = 0x2004 then
      some (bus.ppu.read_from_oam_data, bus)
    else if mirrored_down = 0x2007 then
      match bus.ppu.read_from_data with
      | none => none
      | some (v, p) => some (v, { bus with ppu := p })
    else none
  else if 0xC000 ≤ address then
    if address ≤ 0xFFFF then
      let rom_address := address - 0xC000
      let first_mirror_rom_address :=
        if bus.rom.program_rom.length % 65536 = 16384 ∧ 16384 ≤ rom_address then
          rom_address % 16384
        else rom_address
      if first_mirror_rom_address < bus.rom.program_rom.length then
        some (bus.rom.program_rom.getD first_mirror_rom_address 0, bus)
      else none
    else none
  else none

/-- Little-endian 16-bit read built from two 8-bit reads; the second
address `address + 1` is a plain u16 addition that fails at `0xFFFF`. -/
def Bus.read_u16 (bus : Bus) (address : Nat) : Option (Nat × Bus) :=
  match bus.read_u8 address with
  | none => none
  | some (low_byte, b1) =>
    if address + 1 < 65536 then
      match b1.read_u8 (address + 1) with
      | none => none
      | some (high_byte, b2) => some (low_byte + 256 * high_byte, b2)
    else none

/-- High-byte address used by the page-wrapping 16-bit read: the start
of the pointer's 256-byte page plus `(address + 1) % 256`. -/
def wrapPageHighAddress (address : Nat) : Nat :=
  address / 256 * 256 + (address + 1) % 256

/-- Page-wrapping 16-bit read used for indirect pointers: both bytes
come from the pointer's own 256-byte page. -/
def Bus.read_u16_wrap_page (bus : Bus) (address : Nat) : Option (Nat × Bus) :=
  match bus.read_u8 address with
  | none => none
  | some (low_byte, b1) =>
    if address + 1 < 65536 then
      match b1.read_u8 (wrapPageHighAddress address) with
      | none => none
      | some (high_byte, b2) => some (low_byte + 256 * high_byte, b2)
    else none

/-- Route a write by address range.  Writing the read-only status
register, the unreachable catch-all of the PPU range (which in the
source also carries the dead `0x4014` sprite-DMA arm), the cartridge
region, or any unmapped address panics. -/
def Bus.write_u8 (bus : Bus) (address value : Nat) : Option Bus :=
  if address ≤ 0x1FFF then
    some { bus with
      cpu_ram := fun i => if i = address % 2048 then value else bus.cpu_ram i }
  else if address ≤ 0x3FFF then
    let mirrored_down := address &&& 0x2007
    if mirrored_down = 0x2002 then none
    else if mirrored_down = 0x2000 then some { bus with ppu := bus.ppu.write_to_control value }
    else if mirrored_down = 0x2001 then some { bus with ppu := bus.ppu.write_to_mask value }
    else if mirrored_down = 0x2003 then some { bus with ppu := bus.ppu.write_to_oam_address value }
    else if mirrored_down = 0x2004 then some { bus with ppu := bus.ppu.write_to_oam_data value }
    else if mirrored_down = 0x2005 then some { bus with ppu := bus.ppu.write_to_scroll value }
    else if mirrored_down = 0x2006 then some { bus with ppu := bus.ppu.write_to_vram_address value }
    else if mirrored_down = 0x2007 then
      match bus.ppu.write_to_data value with
      | none => none
      | some p => some { bus with ppu := p }
    else none
  else none

/-- Little-endian 16-bit write built from two 8-bit writes. -/
def Bus.write_u16 (bus : Bus) (address value : Nat) : Option Bus :=
  let low_byte := value % 256
  let high_byte := value / 256 % 256
  match bus.write_u8 address low_byte with
  | none => none
  | some b1 =>
    if address + 1 < 65536 then b1.write_u8 (address + 1) high_byte
    else none

/-! ## CPU and console (src/cpu.rs, src/console.rs) -/

/-- Processor registers (src/cpu.rs `Cpu`); the flag byte packs
Negative `0x80`, Overflow `0x40`, Break `0x20`, Break2 `0x10`,
Decimal `0x08`, InterruptDisable `0x04`, Zero `0x02`, Carry `0x01`. -/
structure Cpu where
  pc : Nat
  sp : Nat
  a : Nat
  x : Nat
  y : Nat
  flags : Nat

def FLAG_NEGATIVE : Nat := 0x80
def FLAG_OVERFLOW : Nat := 0x40
def FLAG_BREAK : Nat := 0x20
def FLAG_BREAK_2 : Nat := 0x10
def FLAG_DECIMAL : Nat := 0x08
def FLAG_INTERRUPT_DISABLE : Nat := 0x04
def FLAG_ZERO : Nat := 0x02
def FLAG_CARRY : Nat := 0x01

/-- `bitflags` `contains`: all bits of the mask are present. -/
def flagContains (flags mask : Nat) : Bool := flags &&& mask == mask

/-- `bitflags` `set`: insert the mask when the condition holds,
otherwise remove it (`& !mask` within the byte). -/
def flagSet (flags mask : Nat) (b : Bool) : Nat :=
  if b then flags ||| mask else flags &&& (255 - mask)

/-- Top-level owner (src/console.rs `Console`). -/
structure Console where
  cpu : Cpu
  bus : Bus
  ppu : Ppu
  rom : Rom

/-- Modelled from the spec: `src/cpu.rs` reads and writes memory
through free functions `bus::read_u8(console, address)` etc. whose
module is not under src (src/bus.rs only has the method forms).
Section 4.1 of the spec says every access dispatches by address range
to RAM, graphics-chip registers, or cartridge data exactly as
`Bus::read_u8` does, so these lift the `Bus` operations of src/bus.rs
to the console. -/
def Console.read_u8 (c : Console) (address : Nat) : Option (Nat × Console) :=
  match c.bus.read_u8 address with
  | none => none
  | some (v, b) => some (v, { c with bus := b })

/-- Modelled from the spec: see `Console.read_u8`; `read_i8`
reinterprets the byte as signed. -/
def Console.read_i8 (c : Console) (address : Nat) : Option (Int × Console) :=
  match c.read_u8 address with
  | none => none
  | some (v, c') => some (toI8 v, c')

/-- Modelled from the spec: see `Console.read_u8`. -/
def Console.read_u16 (c : Console) (address : Nat) : Option (Nat × Console) :=
  match c.bus.read_u16 address with
  | none => none
  | some (v, b) => some (v, { c with bus := b })

/-- Modelled from the spec: see `Console.read_u8`. -/
def Console.read_u16_wrap_page (c : Console) (address : Nat) : Option (Nat × Console) :=
  match c.bus.read_u16_wrap_page address with
  | none => none
  | some (v, b) => some (v, { c with bus := b })

/-- Modelled from the spec: see `Console.read_u8`. -/
def Console.write_u8 (c : Console) (address value : Nat) : Option Console :=
  match c.bus.write_u8 address value with
  | none => none
  | some b => some { c with bus := b }

/-- Modelled from the spec: see `Console.read_u8`. -/
def Console.write_u16 (c : Console) (address value : Nat) : Option Console :=
  match c.bus.write_u16 address value with
  | none => none
  | some b => some { c with bus := b }

/-- `pull_stack_u8`: `sp += 1` is a plain u8 addition (fails at
`0xFF`), then read at `0x0100 + sp`. -/
def pull_stack_u8 (c : Console) : Option (Nat × Console) :=
  if c.cpu.sp + 1 < 256 then
    let c := { c with cpu := { c.cpu with sp := c.cpu.sp + 1 } }
    c.read_u8 (0x0100 + c.cpu.sp)
  else none

/-- `pull_stack_u16`: `sp += 2` (fails past `0xFF`), then a 16-bit
read at `0x0100 + sp - 1`. -/
def pull_stack_u16 (c : Console) : Option (Nat × Console) :=
  if c.cpu.sp + 2 < 256 then
    let c := { c with cpu := { c.cpu with sp := c.cpu.sp + 2 } }
    c.read_u16 (0x0100 + c.cpu.sp - 1)
  else none

/-- `push_stack_u8`: write at `0x0100 + sp`, then `sp -= 1` (a plain
u8 subtraction, fails at 0). -/
def push_stack_u8 (c : Console) (value : Nat) : Option Console :=
  match c.write_u8 (0x0100 + c.cpu.sp) value with
  | none => none
  | some c =>
    if 1 ≤ c.cpu.sp then some { c with cpu := { c.cpu with sp := c.cpu.sp - 1 } }
    else none

/-- `push_stack_u16`: 16-bit write at `(0x0100 | sp) - 1`, then
`sp -= 2` (fails below 2). -/
def push_stack_u16 (c : Console) (value : Nat) : Option Console :=
  match c.write_u16 ((0x0100 ||| c.cpu.sp) - 1) value with
  | none => none
  | some c =>
    if 2 ≤ c.cpu.sp then some { c with cpu := { c.cpu with sp := c.cpu.sp - 2 } }
    else none

/-! ## Instruction execution (src/instruction.rs, src/cpu.rs `step`) -/

/-- Addressing modes (src/instruction.rs). -/
inductive AddressingMode where
  | Immediate
  | ZeroPage
  | ZeroPageX
  | ZeroPageY
  | Relative
  | Absolute
  | AbsoluteX
  | AbsoluteY
  | Indirect
  | IndirectX
  | IndirectY
  | None
deriving DecidableEq, Repr

/-- Instruction descriptor (src/instruction.rs). -/
structure Instruction where
  opcode : Nat
  operation : String
  addressing_mode : AddressingMode
  bytes : Nat
  cycles : Nat

/-- `(n as i8) < 0`, i.e. bit 7 of the byte. -/
def i8Neg (n : Nat) : Bool := decide (toI8 n < 0)

/-- Helper `increment` of `step`: wrapping 8-bit increment of a
register, updating Zero and Negative. -/
def incrementReg (value flags : Nat) : Nat × Nat :=
  let result := (value + 1) % 256
  let flags := flagSet flags FLAG_ZERO (result == 0)
  let flags := flagSet flags FLAG_NEGATIVE (i8Neg result)
  (result, flags)

/-- Helper `decrement` of `step`: wrapping 8-bit decrement. -/
def decrementReg (value flags : Nat) : Nat × Nat :=
  let result := (value + 255) % 256
  let flags := flagSet flags FLAG_ZERO (result == 0)
  let flags := flagSet flags FLAG_NEGATIVE (i8Neg result)
  (result, flags)

/-- Helper `compare` of `step`: set Carry, Zero, Negative from the
borrowing subtraction `lhs - rhs`. -/
def compareFlags (lhs rhs flags : Nat) : Nat :=
  let result := (lhs + 256 - rhs) % 256
  let borrow := decide (lhs < rhs)
  let flags := flagSet flags FLAG_CARRY (!borrow)
  let flags := flagSet flags FLAG_ZERO (lhs == rhs)
  flagSet flags FLAG_NEGATIVE (i8Neg result)

/-- Helper `branch` of `step`: when the condition holds, add the
signed 8-bit offset to the program counter through i16 arithmetic
(`(pc as i16 + offset as i16) as u16`); the i16 addition is plain
(overflow-checked) arithmetic. -/
def branchPc (cpu : Cpu) (condition : Bool) (offset : Int) : Option Cpu :=
  if condition then
    let sum := toI16 cpu.pc + offset
    if -32768 ≤ sum ∧ sum ≤ 32767 then some { cpu with pc := toU16 sum }
    else none
  else some cpu

/-- Helper `load` of `step`: the loaded value with Zero and Negative
updated. -/
def loadReg (value flags : Nat) : Nat × Nat :=
  let flags := flagSet flags FLAG_ZERO (value == 0)
  let flags := flagSet flags FLAG_NEGATIVE (i8Neg value)
  (value, flags)

/-- Helper `read_address` of `step`: resolve the operand address for
an addressing mode, advancing the program counter by the operand
length (plain u16 additions, overflow-checked). -/
def read_address (c : Console) (mode : AddressingMode) : Option (Nat × Console) :=
  match mode with
  | AddressingMode.Immediate =>
    let address := c.cpu.pc
    if c.cpu.pc + 1 < 65536 then
      some (address, { c with cpu := { c.cpu with pc := c.cpu.pc + 1 } })
    else none
  | AddressingMode.ZeroPage =>
    match c.read_u8 c.cpu.pc with
    | none => none
    | some (address, c) =>
      if c.cpu.pc + 1 < 65536 then
        some (address, { c with cpu := { c.cpu with pc := c.cpu.pc + 1 } })
      else none
  | AddressingMode.ZeroPageX =>
    match c.read_u8 c.cpu.pc with
    | none => none
    | some (address, c) =>
      if c.cpu.pc + 1 < 65536 then
        let c := { c with cpu := { c.cpu with pc := c.cpu.pc + 1 } }
        some ((address + c.cpu.x) % 256, c)
      else none
  | AddressingMode.ZeroPageY =>
    match c.read_u8 c.cpu.pc with
    | none => none
    | some (address, c) =>
      if c.cpu.pc + 1 < 65536 then
        let c := { c with cpu := { c.cpu with pc := c.cpu.pc + 1 } }
        some ((address + c.cpu.y) % 256, c)
      else none
  | AddressingMode.Relative =>
    let address := c.cpu.pc
    if c.cpu.pc + 1 < 65536 then
      some (address, { c with cpu := { c.cpu with pc := c.cpu.pc + 1 } })
    else none
  | AddressingMode.Absolute =>
    match c.read_u16 c.cpu.pc with
    | none => none
    | some (address, c) =>
      if c.cpu.pc + 2 < 65536 then
        some (address, { c with cpu := { c.cpu with pc := c.cpu.pc + 2 } })
      else none
  | AddressingMode.AbsoluteX =>
    match c.read_u16 c.cpu.pc with
    | none => none
    | some (address, c) =>
      if c.cpu.pc + 2 < 65536 then
        let c := { c with cpu := { c.cpu with pc := c.cpu.pc + 2 } }
        some ((address + c.cpu.x) % 65536, c)
      else none
  | AddressingMode.AbsoluteY =>
    match c.read_u16 c.cpu.pc with
    | none => none
    | some (address, c) =>
      if c.cpu.pc + 2 < 65536 then
        let c := { c with cpu := { c.cpu with pc := c.cpu.pc + 2 } }
        some ((address + c.cpu.y) % 65536, c)
      else none
  | AddressingMode.Indirect =>
    match c.read_u16 c.cpu.pc with
    | none => none
    | some (indirect_address, c) =>
      if c.cpu.pc + 2 < 65536 then
        let c := { c with cpu := { c.cpu with pc := c.cpu.pc + 2 } }
        c.read_u16_wrap_page indirect_address
      else none
  | AddressingMode.IndirectX =>
    match c.read_u8 c.cpu.pc with
    | none => none
    | some (indirect_address, c) =>
      if c.cpu.pc + 1 < 65536 then
        let c := { c with cpu := { c.cpu with pc := c.cpu.pc + 1 } }
        c.read_u16_wrap_page ((indirect_address + c.cpu.x) % 256)
      else none
  | AddressingMode.IndirectY =>
    match c.read_u8 c.cpu.pc with
    | none => none
    | some (indirect_address, c) =>
      if c.cpu.pc + 1 < 65536 then
        let c := { c with cpu := { c.cpu with pc := c.cpu.pc + 1 } }
        match c.read_u16_wrap_page indirect_address with
        | none => none
        | some (address, c) => some ((address + c.cpu.y) % 65536, c)
      else none
  | AddressingMode.None => none

/-- The shift/rotate/flag bookkeeping shared by the accumulator and
memory forms, written out arm by arm below to stay close to the
source. -/
def setZN (flags result : Nat) : Nat :=
  flagSet (flagSet flags FLAG_ZERO (result == 0)) FLAG_NEGATIVE (i8Neg result)

/-- `step` (src/cpu.rs): advance the program counter past the opcode
(plain u16 addition), then execute the instruction.  Implied-mode
instructions run directly; every other mode resolves an operand
address first.  Unknown mnemonics hit the source's `todo!` and fail. -/
def step (c : Console) (instruction : Instruction) : Option Console :=
  if c.cpu.pc + 1 < 65536 then
    let c := { c with cpu := { c.cpu with pc := c.cpu.pc + 1 } }
    match instruction.addressing_mode with
    | AddressingMode.None =>
      match instruction.operation with
      | "ASL" =>
        let value := c.cpu.a
        let result := value * 2 % 256
        let flags := flagSet c.cpu.flags FLAG_CARRY (value &&& 128 != 0)
        some { c with cpu := { c.cpu with a := result, flags := setZN flags result } }
      | "BRK" =>
        match push_stack_u16 c c.cpu.pc with
        | none => none
        | some c =>
          match push_stack_u8 c c.cpu.flags with
          | none => none
          | some c =>
            match c.read_u16 0xFFFE with
            | none => none
            | some (v, c) =>
              some { c with cpu := { c.cpu with
                pc := v, flags := flagSet c.cpu.flags FLAG_BREAK true } }
      | "CLC" => some { c with cpu := { c.cpu with flags := flagSet c.cpu.flags FLAG_CARRY false } }
      | "CLD" => some { c with cpu := { c.cpu with flags := flagSet c.cpu.flags FLAG_DECIMAL false } }
      | "CLI" => some { c with cpu := { c.cpu with flags := flagSet c.cpu.flags FLAG_INTERRUPT_DISABLE false } }
      | "CLV" => some { c with cpu := { c.cpu with flags := flagSet c.cpu.flags FLAG_OVERFLOW false } }
      | "DEX" =>
        let r := decrementReg c.cpu.x c.cpu.flags
        some { c with cpu := { c.cpu with x := r.1, flags := r.2 } }
      | "DEY" =>
        let r := decrementReg c.cpu.y c.cpu.flags
        some { c with cpu := { c.cpu with y := r.1, flags := r.2 } }
      | "INX" =>
        let r := incrementReg c.cpu.x c.cpu.flags
        some { c with cpu := { c.cpu with x := r.1, flags := r.2 } }
      | "INY" =>
        let r := incrementReg c.cpu.y c.cpu.flags
        some { c with cpu := { c.cpu with y := r.1, flags := r.2 } }
      | "LSR" =>
        let value := c.cpu.a
        let result := value / 2
        let flags := flagSet c.cpu.flags FLAG_CARRY (value &&& 1 != 0)
        some { c with cpu := { c.cpu with a := result, flags := setZN flags result } }
      | "NOP" => some c
      | "PHA" => push_stack_u8 c c.cpu.a
      | "PHP" => push_stack_u8 c (c.cpu.flags ||| (FLAG_BREAK ||| FLAG_BREAK_2))
      | "PLA" =>
        match pull_stack_u8 c with
        | none => none
        | some (value, c) =>
          some { c with cpu := { c.cpu with a := value, flags := setZN c.cpu.flags value } }
      | "PLP" =>
        match pull_stack_u8 c with
        | none => none
        | some (value, c) =>
          some { c with cpu := { c.cpu with
            flags := (value ||| FLAG_BREAK) &&& (255 - FLAG_BREAK_2) } }
      | "ROL" =>
        let value := c.cpu.a
        let carry_mask := if flagContains c.cpu.flags FLAG_CARRY then 1 else 0
        let result := (value * 2 % 256) ||| carry_mask
        let flags := flagSet c.cpu.flags FLAG_CARRY (value &&& 128 != 0)
        some { c with cpu := { c.cpu with a := result, flags := setZN flags result } }
      | "ROR" =>
        let value := c.cpu.a
        let carry_mask := if flagContains c.cpu.flags FLAG_CARRY then 128 else 0
        let result := value / 2 ||| carry_mask
        let flags := flagSet c.cpu.flags FLAG_CARRY (value &&& 1 != 0)
        some { c with cpu := { c.cpu with a := result, flags := setZN flags result } }
      | "RTI" =>
        match pull_stack_u8 c with
        | none => none
        | some (value, c) =>
          let c := { c with cpu := { c.cpu with
            flags := (value ||| FLAG_BREAK) &&& (255 - FLAG_BREAK_2) } }
          match pull_stack_u16 c with
          | none => none
          | some (v, c) => some { c with cpu := { c.cpu with pc := v } }
      | "RTS" =>
        match pull_stack_u16 c with
        | none => none
        | some (v, c) =>
          if v + 1 < 65536 then some { c with cpu := { c.cpu with pc := v + 1 } }
          else none
      | "SEC" => some { c with cpu := { c.cpu with flags := flagSet c.cpu.flags FLAG_CARRY true } }
      | "SED" => some { c with cpu := { c.cpu with flags := flagSet c.cpu.flags FLAG_DECIMAL true } }
      | "SEI" => some { c with cpu := { c.cpu with flags := flagSet c.cpu.flags FLAG_INTERRUPT_DISABLE true } }
      | "TAX" =>
        let value := c.cpu.a
        some { c with cpu := { c.cpu with x := value, flags := setZN c.cpu.flags value } }
      | "TAY" =>
        let value := c.cpu.a
        some { c with cpu := { c.cpu with y := value, flags := setZN c.cpu.flags value } }
      | "TSX" =>
        let value := c.cpu.sp
        some { c with cpu := { c.cpu with x := value, flags := setZN c.cpu.flags value } }
      | "TXA" =>
        let value := c.cpu.x
        some { c with cpu := { c.cpu with a := value, flags := setZN c.cpu.flags value } }
      | "TXS" => some { c with cpu := { c.cpu with sp := c.cpu.x } }
      | "TYA" =>
        let value := c.cpu.y
        some { c with cpu := { c.cpu with a := value, flags := setZN c.cpu.flags value } }
      | _ => none
    | _ =>
      match read_address c instruction.addressing_mode with
      | none => none
      | some (address, c) =>
        match instruction.operation with
        | "ADC" =>
          let acc_value := c.cpu.a
          match c.read_u8 address with
          | none => none
          | some (memory_value, c) =>
            let carry := flagContains c.cpu.flags FLAG_CARRY
            let sum := acc_value + memory_value + (if carry then 1 else 0)
            let result := sum % 256
            let result_carry := decide (256 ≤ sum)
            let overflow := decide (toI8 acc_value + toI8 memory_value < -128 ∨
                                    127 < toI8 acc_value + toI8 memory_value)
            let flags := flagSet c.cpu.flags FLAG_CARRY result_carry
            let flags := flagSet flags FLAG_ZERO (result == 0)
            let flags := flagSet flags FLAG_OVERFLOW overflow
            let flags := flagSet flags FLAG_NEGATIVE (i8Neg result)
            some { c with cpu := { c.cpu with a := result, flags := flags } }
        | "AND" =>
          match c.read_u8 address with
          | none => none
          | some (value, c) =>
            let result := c.cpu.a &&& value
            some { c with cpu := { c.cpu with a := result, flags := setZN c.cpu.flags result } }
        | "ASL" =>
          match c.read_u8 address with
          | none => none
          | some (value, c) =>
            let result := value * 2 % 256
            match c.write_u8 address result with
            | none => none
            | some c =>
              let flags := flagSet c.cpu.flags FLAG_CARRY (value &&& 128 != 0)
              some { c with cpu := { c.cpu with flags := setZN flags result } }
        | "BCC" =>
          match c.read_i8 address with
          | none => none
          | some (offset, c) =>
            match branchPc c.cpu (!flagContains c.cpu.flags FLAG_CARRY) offset with
            | none => none
            | some cpu => some { c with cpu := cpu }
        | "BCS" =>
          match c.read_i8 address with
          | none => none
          | some (offset, c) =>
            match branchPc c.cpu (flagContains c.cpu.flags FLAG_CARRY) offset with
            | none => none
            | some cpu => some { c with cpu := cpu }
        | "BEQ" =>
          match c.read_i8 address with
          | none => none
          | some (offset, c) =>
            match branchPc c.cpu (flagContains c.cpu.flags FLAG_ZERO) offset with
            | none => none
            | some cpu => some { c with cpu := cpu }
        | "BIT" =>
          match c.read_u8 address with
          | none => none
          | some (value, c) =>
            let result := c.cpu.a &&& value
            let flags := flagSet c.cpu.flags FLAG_ZERO (result == 0)
            let flags := flagSet flags FLAG_OVERFLOW (value &&& 64 != 0)
            let flags := flagSet flags FLAG_NEGATIVE (value &&& 128 != 0)
            some { c with cpu := { c.cpu with flags := flags } }
        | "BMI" =>
          match c.read_i8 address with
          | none => none
          | some (offset, c) =>
            match branchPc c.cpu (flagContains c.cpu.flags FLAG_NEGATIVE) offset with
            | none => none
            | some cpu => some { c with cpu := cpu }
        | "BNE" =>
          match c.read_i8 address with
          | none => none
          | some (offset, c) =>
            match branchPc c.cpu (!flagContains c.cpu.flags FLAG_ZERO) offset with
            | none => none
            | some cpu => some { c with cpu := cpu }
        | "BPL" =>
          match c.read_i8 address with
          | none => none
          | some (offset, c) =>
            match branchPc c.cpu (!flagContains c.cpu.flags FLAG_NEGATIVE) offset with
            | none => none
            | some cpu => some { c with cpu := cpu }
        | "BVC" =>
          match c.read_i8 address with
          | none => none
          | some (offset, c) =>
            match branchPc c.cpu (!flagContains c.cpu.flags FLAG_OVERFLOW) offset with
            | none => none
            | some cpu => some { c with cpu := cpu }
        | "BVS" =>
          match c.read_i8 address with
          | none => none
          | some (offset, c) =>
            match branchPc c.cpu (flagContains c.cpu.flags FLAG_OVERFLOW) offset with
            | none => none
            | some cpu => some { c with cpu := cpu }
        | "CMP" =>
          match c.read_u8 address with
          | none => none
          | some (memory_value, c) =>
            some { c with cpu := { c.cpu with
              flags := compareFlags c.cpu.a memory_value c.cpu.flags } }
        | "CPX" =>
          match c.read_u8 address with
          | none => none
          | some (memory_value, c) =>
            some { c with cpu := { c.cpu with
              flags := compareFlags c.cpu.x memory_value c.cpu.flags } }
        | "CPY" =>
          match c.read_u8 address with
          | none => none
          | some (memory_value, c) =>
            some { c with cpu := { c.cpu with
              flags := compareFlags c.cpu.y memory_value c.cpu.flags } }
        | "DEC" =>
          match c.read_u8 address with
          | none => none
          | some (value, c) =>
            let result := (value + 255) % 256
            match c.write_u8 address result with
            | none => none
            | some c =>
              some { c with cpu := { c.cpu with flags := setZN c.cpu.flags result } }
        | "EOR" =>
          match c.read_u8 address with
          | none => none
          | some (value, c) =>
            let result := c.cpu.a ^^^ value
            some { c with cpu := { c.cpu with a := result, flags := setZN c.cpu.flags result } }
        | "INC" =>
          match c.read_u8 address with
          | none => none
          | some (value, c) =>
            let result := (value + 1) % 256
            match c.write_u8 address result with
            | none => none
            | some c =>
              some { c with cpu := { c.cpu with flags := setZN c.cpu.flags result } }
        | "JMP" => some { c with cpu := { c.cpu with pc := address } }
        | "JSR" =>
          if 1 ≤ c.cpu.pc then
            match push_stack_u16 c (c.cpu.pc - 1) with
            | none => none
            | some c => some { c with cpu := { c.cpu with pc := address } }
          else none
        | "LDA" =>
          match c.read_u8 address with
          | none => none
          | some (value, c) =>
            let r := loadReg value c.cpu.flags
            some { c with cpu := { c.cpu with a := r.1, flags := r.2 } }
        | "LDX" =>
          match c.read_u8 address with
          | none => none
          | some (value, c) =>
            some { c with cpu := { c.cpu with x := value, flags := setZN c.cpu.flags value } }
        | "LDY" =>
          match c.read_u8 address with
          | none => none
          | some (value, c) =>
            some { c with cpu := { c.cpu with y := value, flags := setZN c.cpu.flags value } }
        | "LSR" =>
          match c.read_u8 address with
          | none => none
          | some (value, c) =>
            let result := value / 2
            match c.write_u8 address result with
            | none => none
            | some c =>
              let flags := flagSet c.cpu.flags FLAG_CARRY (value &&& 1 != 0)
              some { c with cpu := { c.cpu with flags := setZN flags result } }
        | "ORA" =>
          match c.read_u8 address with
          | none => none
          | some (value, c) =>
            let result := c.cpu.a ||| value
            some { c with cpu := { c.cpu with a := result, flags := setZN c.cpu.flags result } }
        | "ROL" =>
          match c.read_u8 address with
          | none => none
          | some (value, c) =>
            let carry_mask := if flagContains c.cpu.flags FLAG_CARRY then 1 else 0
            let result := (value * 2 % 256) ||| carry_mask
            match c.write_u8 address result with
            | none => none
            | some c =>
              let flags := flagSet c.cpu.flags FLAG_CARRY (value &&& 128 != 0)
              some { c with cpu := { c.cpu with flags := setZN flags result } }
        | "ROR" =>
          match c.read_u8 address with
          | none => none
          | some (value, c) =>
            let carry_mask := if flagContains c.cpu.flags FLAG_CARRY then 128 else 0
            let result := value / 2 ||| carry_mask
            match c.write_u8 address result with
            | none => none
            | some c =>
              let flags := flagSet c.cpu.flags FLAG_CARRY (value &&& 1 != 0)
              some { c with cpu := { c.cpu with flags := setZN flags result } }
        | "SBC" =>
          let acc_value := c.cpu.a
          match c.read_u8 address with
          | none => none
          | some (memory_value, c) =>
            let carry := flagContains c.cpu.flags FLAG_CARRY
            let borrow_in := if carry then 0 else 1
            let result := (acc_value + 512 - (memory_value + borrow_in)) % 256
            let borrow := decide (acc_value < memory_value + borrow_in)
            let signed := toI8 acc_value - toI8 memory_value - borrow_in
            let overflow := decide (signed < -128 ∨ 127 < signed)
            let flags := flagSet c.cpu.flags FLAG_CARRY (!borrow)
            let flags := flagSet flags FLAG_ZERO (result == 0)
            let flags := flagSet flags FLAG_OVERFLOW overflow
            let flags := flagSet flags FLAG_NEGATIVE (i8Neg result)
            some { c with cpu := { c.cpu with a := result, flags := flags } }
        | "STA" =>
          match c.write_u8 address c.cpu.a with
          | none => none
          | some c => some c
        | "STX" =>
          match c.write_u8 address c.cpu.x with
          | none => none
          | some c => some c
        | "STY" =>
          match c.write_u8 address c.cpu.y with
          | none => none
          | some c => some c
        | _ => none
  else none

/-! ## Concrete states used by counterexamples and witnesses -/

/-- A PPU in its power-on state with an 8 KiB pattern buffer. -/
def ppu0 : Ppu :=
  { chr_rom := List.replicate 8192 0
    palette_table := fun _ => 0
    vram := fun _ => 0
    oam := fun _ => 0
    mirroring := Mirroring.Horizontal
    control := 0
    mask := 0
    status := 0
    oam_address := 0
    scroll := { x_scroll := 0, y_scroll := 0, x_scroll_active := true }
    vram_address := { high_byte := 0, low_byte := 0, high_byte_active := true }
    nmi_interrupt := false
    data_buffer := 0
    cycles := 0
    scanline := 0 }

/-- A cartridge with a single 16 KiB program bank. -/
def rom16 : Rom :=
  { program_rom := List.replicate 16384 0
    character_rom := List.replicate 8192 0
    mirroring := Mirroring.Horizontal
    mapper := Mapper.Zero }

/-- A bus over zeroed RAM, `ppu0` and `rom16`. -/
def bus0 : Bus := { cpu_ram := fun _ => 0, ppu := ppu0, rom := rom16 }

/-- A CPU in its power-on state (src/config.rs start values). -/
def cpu0 : Cpu := { pc := 0xC000, sp := 0xFD, a := 0, x := 0, y := 0, flags := 0x24 }

/-- A console combining the states above. -/
def console0 : Console := { cpu := cpu0, bus := bus0, ppu := ppu0, rom := rom16 }

/-! ## C1: cartridge region reads -/

/-- C1 fails as stated: the claimed cartridge region holds 16 KiB or
32 KiB at the high addresses, so its 32 KiB form starts at `0x8000`;
but with a 16 KiB program buffer a bus read at `0x8000` fails instead
of returning the byte at offset 0 of the buffer, because the code maps
the cartridge only at `0xC000-0xFFFF`. -/
theorem c1_counterexample : bus0.read_u8 0x8000 = none := rfl

/-- C1 (amended): the cartridge region spans only `0xC000-0xFFFF`
(16 KiB of address space).  A read there returns the program-data byte
at offset `address - 0xC000` whenever the offset is inside the buffer;
every such offset is below 16 KiB, so the single-page mirroring branch
is unreachable and no upper-half mirroring is observable; addresses
`0x4000-0xBFFF` (including the would-be lower half `0x8000-0xBFFF` of
a 32 KiB region) fail the access. -/
theorem c1_rom_region (bus : Bus) (a b : Nat)
    (h1 : 0xC000 ≤ a) (h2 : a ≤ 0xFFFF)
    (h3 : a - 0xC000 < bus.rom.program_rom.length)
    (h4 : 0x4000 ≤ b) (h5 : b < 0xC000) :
    bus.read_u8 a = some (bus.rom.program_rom.getD (a - 0xC000) 0, bus)
      ∧ a - 0xC000 < 16384
      ∧ bus.read_u8 b = none := by
  refine ⟨?_, by omega, ?_⟩
  · have hm : ¬ (bus.rom.program_rom.length % 65536 = 16384 ∧ 16384 ≤ a - 0xC000) := by
      rintro ⟨_, h⟩; omega
    simp only [Bus.read_u8]
    rw [if_neg (by omega), if_neg (by omega), if_pos h1, if_pos h2, if_neg hm, if_pos h3]
  · simp only [Bus.read_u8]
    rw [if_neg (by omega), if_neg (by omega), if_neg (by omega)]

/-- Witness for `c1_rom_region` at a concrete bus and addresses. -/
theorem c1_rom_region_witness :
    bus0.read_u8 0xC123 = some (bus0.rom.program_rom.getD (0xC123 - 0xC000) 0, bus0)
      ∧ 0xC123 - 0xC000 < 16384
      ∧ bus0.read_u8 0x8123 = none :=
  c1_rom_region bus0 0xC123 0x8123 (by decide) (by decide)
    (show 0xC123 - 0xC000 < (List.replicate 16384 (0 : Nat)).length by
      rw [List.length_replicate]; omega)
    (by decide) (by decide)

/-! ## C3: ADC flag semantics -/

/-- The ADC-immediate instruction descriptor (src/instruction.rs). -/
def adcImmediate : Instruction :=
  { opcode := 0x69, operation := "ADC", addressing_mode := AddressingMode.Immediate,
    bytes := 2, cycles := 2 }

/-- A console about to execute ADC with A = 0x7F, carry-in set, and a
zero operand byte in RAM at the program counter's operand slot. -/
def consoleAdc : Console :=
  { console0 with cpu := { pc := 0x10, sp := 0xFD, a := 0x7F, x := 0, y := 0, flags := 0x01 } }

/-- C3 (code bug): executing ADC with A = 0x7F, operand 0x00 and
carry-in 1 produces result 0x80 and leaves Overflow clear
(final flag byte 0x80 carries only Negative), although the signed sum
127 + 0 + 1 = 128 lies outside [-128, 127], so the claim requires
Overflow set.  The source computes the overflow flag from
`acc as i8 + operand as i8` alone, ignoring the carry-in that its own
result includes. -/
theorem c3_adc_overflow_bug :
    (step consoleAdc adcImmediate).map (fun c => (c.cpu.a, c.cpu.flags)) = some (0x80, 0x80)
      ∧ flagContains 0x80 FLAG_OVERFLOW = false
      ∧ 127 < toI8 0x7F + toI8 0x00 + 1 :=
  ⟨rfl, by decide, by decide⟩

/-! ## C4: PPU data-register reads -/

/-- A PPU whose current VRAM address is the palette address 0x3F20. -/
def ppuPalette : Ppu :=
  { ppu0 with vram_address := { high_byte := 0x3F, low_byte := 0x20, high_byte_active := true } }

/-- C4 fails as stated: 0x3F20 lies in the palette range
`0x3F00-0x3FFF`, but reading the data register there fails (the
32-byte palette table is indexed out of bounds) instead of returning a
palette byte. -/
theorem c4_counterexample : ppuPalette.read_from_data = none := rfl

/-- C4 (amended): reading the data register returns the previously
buffered byte and refills the buffer from the currently addressed byte
for the pattern-table range (given the 8 KiB pattern buffer) and for
the nametable range (whenever the mirroring fold is defined, i.e. not
FourScreen); palette reads return the palette byte immediately without
buffering only for `0x3F00-0x3F1F`, the 32 bytes the table holds; in
all successful cases the VRAM address advances by the control
register's configured amount, which is 1 or 32, modulo the register's
14-bit range. -/
theorem c4_data_read_buffered (ppu : Ppu) (i n : Nat) :
    (ppu.vram_address.get ≤ 0x1FFF → ppu.chr_rom.length = 8192 →
      ppu.read_from_data = some (ppu.data_buffer,
        { ppu with
            vram_address := ppu.vram_address.increment (vramAddressIncrementAmount ppu.control)
            data_buffer := ppu.chr_rom.getD ppu.vram_address.get 0 }))
    ∧ (0x2000 ≤ ppu.vram_address.get → ppu.vram_address.get ≤ 0x2FFF →
        ppu.mirror_down_vram ppu.vram_address.get = some i →
      ppu.read_from_data = some (ppu.data_buffer,
        { ppu with
            vram_address := ppu.vram_address.increment (vramAddressIncrementAmount ppu.control)
            data_buffer := ppu.vram i }))
    ∧ (0x3F00 ≤ ppu.vram_address.get → ppu.vram_address.get ≤ 0x3F1F →
      ppu.read_from_data = some (ppu.palette_table (ppu.vram_address.get - 0x3F00),
        { ppu with
            vram_address := ppu.vram_address.increment (vramAddressIncrementAmount ppu.control) }))
    ∧ (ppu.vram_address.increment n).get = (ppu.vram_address.get + n) % 16384
    ∧ (vramAddressIncrementAmount ppu.control = 1 ∨ vramAddressIncrementAmount ppu.control = 32) := by
  refine ⟨?_, ?_, ?_, ?_, ?_⟩
  · intro h1 h2
    simp only [Ppu.read_from_data, Ppu.increment_address]
    rw [if_pos h1, if_pos (show ppu.vram_address.get < ppu.chr_rom.length by omega)]
  · intro h1 h2 h3
    simp only [Ppu.read_from_data, Ppu.increment_address]
    rw [if_neg (by omega), if_pos h2]
    have hsame :
        Ppu.mirror_down_vram
          { ppu with
              vram_address :=
                ppu.vram_address.increment (vramAddressIncrementAmount ppu.control) }
          ppu.vram_address.get
          = ppu.mirror_down_vram ppu.vram_address.get := rfl
    rw [hsame, h3]
  · intro h1 h2
    simp only [Ppu.read_from_data, Ppu.increment_address]
    rw [if_neg (by omega), if_neg (by omega), if_neg (by omega), if_pos (by omega),
      if_pos (by omega)]
  · simp only [AddressRegister.increment, AddressRegister.mirror_down, AddressRegister.set,
      AddressRegister.get]
    omega
  · unfold vramAddressIncrementAmount
    split
    · exact Or.inr rfl
    · exact Or.inl rfl

/-- Witness for `c4_data_read_buffered` at the power-on PPU, whose
current VRAM address 0 lies in the pattern-table range. -/
theorem c4_data_read_buffered_witness :
    ppu0.read_from_data = some (ppu0.data_buffer,
      { ppu0 with
          vram_address := ppu0.vram_address.increment (vramAddressIncrementAmount ppu0.control)
          data_buffer := ppu0.chr_rom.getD ppu0.vram_address.get 0 })
      ∧ (ppu0.vram_address.increment 7).get = (ppu0.vram_address.get + 7) % 16384 :=
  ⟨(c4_data_read_buffered ppu0 0 7).1 (by decide)
     (show (List.replicate 8192 (0 : Nat)).length = 8192 by rw [List.length_replicate]),
   (c4_data_read_buffered ppu0 0 7).2.2.2.1⟩

/-! ## C5: sprite-DMA register writes -/

/-- C5 (code bug): for every bus state and byte value, writing to the
sprite-DMA register address `0x4014` through the bus fails the access
instead of triggering the 256-byte OAM copy: `0x4014` lies outside
every matched address range (its handler arm sits inside the
PPU-register branch, where the mirrored-down address
`address & 0x2007` can never equal `0x4014`), so the write falls
through to the catch-all panic. -/
theorem c5_oam_dma_bus_write_fails (bus : Bus) (value : Nat) :
    bus.write_u8 0x4014 value = none := rfl

/-! ## C7: page-wrapping pointer reads -/

/-- C7 (confirmed): the page-wrapping 16-bit read at `0x10FF` takes
its low byte from RAM at `0x10FF` (mirrored down to `0x00FF`) and its
high byte from `0x1000` (mirrored down to `0x0000`), not `0x1100`;
and in general the high-byte address stays in the pointer's own
256-byte page. -/
theorem c7_wrap_page_read (bus : Bus) (a : Nat) :
    bus.read_u16_wrap_page 0x10FF
      = some (bus.cpu_ram 0xFF + 256 * bus.cpu_ram 0x0, bus)
      ∧ wrapPageHighAddress 0x10FF = 0x1000
      ∧ wrapPageHighAddress a / 256 = a / 256 := by
  refine ⟨rfl, by norm_num [wrapPageHighAddress], ?_⟩
  unfold wrapPageHighAddress
  omega

/-! ## C8: NMI-enable toggled inside VBlank -/

/-- C8 (confirmed): writing a control value with the NMI-enable bit
set while it was clear and VBlank-status is set raises the interrupt
request immediately; when VBlank-status is clear, or NMI-enable was
already set, the write leaves the interrupt-request flag unchanged. -/
theorem c8_control_write_nmi (ppu : Ppu) (value : Nat) :
    (controlGenerateNmi ppu.control = false → controlGenerateNmi value = true →
      statusVblank ppu.status = true →
      (ppu.write_to_control value).nmi_interrupt = true)
    ∧ (statusVblank ppu.status = false →
      (ppu.write_to_control value).nmi_interrupt = ppu.nmi_interrupt)
    ∧ (controlGenerateNmi ppu.control = true →
      (ppu.write_to_control value).nmi_interrupt = ppu.nmi_interrupt)
    ∧ (ppu.write_to_control value).control = value := by
  refine ⟨?_, ?_, ?_, rfl⟩
  · intro h1 h2 h3
    simp [Ppu.write_to_control, h1, h2, h3]
  · intro h1
    simp [Ppu.write_to_control, h1]
  · intro h1
    simp [Ppu.write_to_control, h1]

/-- A PPU with VBlank-status set and NMI-enable clear. -/
def ppuVblank : Ppu := { ppu0 with status := 128 }

/-- Witness for `c8_control_write_nmi`: a concrete off-to-on toggle
inside VBlank raises the flag, and the same write outside VBlank
leaves it unchanged. -/
theorem c8_control_write_nmi_witness :
    (ppuVblank.write_to_control 128).nmi_interrupt = true
      ∧ (ppu0.write_to_control 128).nmi_interrupt = ppu0.nmi_interrupt :=
  ⟨(c8_control_write_nmi ppuVblank 128).1 (by decide) (by decide) (by decide),
   (c8_control_write_nmi ppu0 128).2.1 (by decide)⟩

/-! ## C10: one scanline per tick call -/

/-- C10 (confirmed): a single `tick` call advances the scanline
counter by at most one however many cycles it is handed (the cycle
budget is compared and subtracted once, not in a loop), and the cycle
accumulator keeps everything beyond the single subtracted 341-cycle
budget; the hypothesis keeps the u32 accumulator addition of the
source free of overflow. -/
theorem c10_tick_single_advance (p : Ppu) (n : Nat) (_h : p.cycles + n < 4294967296) :
    (p.tick n).1.scanline ≤ p.scanline + 1
      ∧ (p.tick n).1.cycles =
          (if 341 ≤ p.cycles + n then p.cycles + n - 341 else p.cycles + n) := by
  simp only [Ppu.tick]
  split_ifs <;> simp

/-- Witness for `c10_tick_single_advance`: 1000 cycles at once still
advance the scanline by at most one and leave 659 in the
accumulator. -/
theorem c10_tick_single_advance_witness :
    (ppu0.tick 1000).1.scanline ≤ ppu0.scanline + 1
      ∧ (ppu0.tick 1000).1.cycles =
          (if 341 ≤ ppu0.cycles + 1000 then ppu0.cycles + 1000 - 341 else ppu0.cycles + 1000) :=
  c10_tick_single_advance ppu0 1000 (by decide)

/-! ## C2: VBlank/NMI timing over a frame -/

/-- A full-scanline tick that lands on a line other than 241 and
below 262 only advances the counter. -/
lemma tickScan_mid (q : Ppu) (h1 : q.scanline + 1 ≠ 241) (h2 : q.scanline + 1 < 262) :
    tickScan q = { q with scanline := q.scanline + 1 } := by
  simp only [tickScan, Ppu.tick]
  split_ifs <;> simp_all <;> omega

/-- The full-scanline tick that lands on line 241 sets VBlank-status
and, when NMI-enable is set, raises the interrupt request. -/
lemma tickScan_hit (q : Ppu) (h : q.scanline = 240) :
    tickScan q =
      { q with
          scanline := 241
          status := q.status ||| 128
          nmi_interrupt :=
            if controlGenerateNmi q.control then true else q.nmi_interrupt } := by
  simp only [tickScan, Ppu.tick]
  split_ifs <;> simp_all

/-- The full-scanline tick that reaches line 262 completes the frame:
scanline back to 0, interrupt request forced off, VBlank-status
cleared. -/
lemma tick341_reset (q : Ppu) (h : q.scanline = 261) :
    q.tick 341 =
      ({ q with
          scanline := 0
          nmi_interrupt := false
          status := q.status &&& 127 }, true) := by
  simp only [Ppu.tick]
  split_ifs <;> simp_all

/-- Iterating full-scanline ticks from an empty accumulator raises the
interrupt request exactly when line 241 is reached, and not before. -/
lemma reach_241 (k : Nat) :
    ∀ q : Ppu, q.cycles = 0 → q.scanline + (k + 1) = 241 →
      controlGenerateNmi q.control = true → q.nmi_interrupt = false →
      (tickScan^[k + 1] q).scanline = 241
      ∧ statusVblank (tickScan^[k + 1] q).status = true
      ∧ (tickScan^[k + 1] q).nmi_interrupt = true
      ∧ (tickScan^[k + 1] q).cycles = 0
      ∧ ∀ j, j ≤ k → (tickScan^[j] q).nmi_interrupt = false := by
  induction k with
  | zero =>
    intro q h0 hs hc hn
    rw [Function.iterate_one, tickScan_hit q (by omega)]
    refine ⟨rfl, ?_, by simp [hc], by simp [h0], ?_⟩
    · simp [statusVblank, Nat.testBit_or, show Nat.testBit 128 7 = true from rfl]
    · intro j hj
      have : j = 0 := by omega
      subst this
      simpa using hn
  | succ k ih =>
    intro q h0 hs hc hn
    have hmid : tickScan q = { q with scanline := q.scanline + 1 } :=
      tickScan_mid q (by omega) (by omega)
    have hrec := ih (tickScan q) (by rw [hmid]; exact h0) (by rw [hmid]; simp; omega)
      (by rw [hmid]; exact hc) (by rw [hmid]; exact hn)
    refine ⟨?_, ?_, ?_, ?_, ?_⟩
    · rw [Function.iterate_succ_apply]; exact hrec.1
    · rw [Function.iterate_succ_apply]; exact hrec.2.1
    · rw [Function.iterate_succ_apply]; exact hrec.2.2.1
    · rw [Function.iterate_succ_apply]; exact hrec.2.2.2.1
    · intro j hj
      match j with
      | 0 => simpa using hn
      | j + 1 =>
        rw [Function.iterate_succ_apply]
        exact hrec.2.2.2.2 j (by omega)

/-- Between lines 241 and 261 with an empty accumulator, iterated
full-scanline ticks only advance the counter and never raise the
interrupt request once it is clear. -/
lemma stay_clear (k : Nat) :
    ∀ q : Ppu, q.cycles = 0 → 241 ≤ q.scanline → q.scanline + k ≤ 261 →
      q.nmi_interrupt = false →
      (tickScan^[k] q).scanline = q.scanline + k
      ∧ (tickScan^[k] q).nmi_interrupt = false
      ∧ (tickScan^[k] q).cycles = 0 := by
  induction k with
  | zero =>
    intro q h0 h1 h2 hn
    exact ⟨by simp, by simpa using hn, by simpa using h0⟩
  | succ k ih =>
    intro q h0 h1 h2 hn
    have hmid : tickScan q = { q with scanline := q.scanline + 1 } :=
      tickScan_mid q (by omega) (by omega)
    have hrec := ih (tickScan q) (by rw [hmid]; exact h0) (by rw [hmid]; simp; omega)
      (by rw [hmid]; simp; omega) (by rw [hmid]; exact hn)
    have hsl : (tickScan^[k] (tickScan q)).scanline = q.scanline + 1 + k := by
      rw [hrec.1, hmid]
    refine ⟨?_, ?_, ?_⟩
    · rw [Function.iterate_succ_apply, hsl]; omega
    · rw [Function.iterate_succ_apply]; exact hrec.2.1
    · rw [Function.iterate_succ_apply]; exact hrec.2.2

/-- C2 (confirmed): from a state with NMI-enable set, the
interrupt-request flag clear, the scanline k+1 lines below 241 and an
empty cycle accumulator, k+1 full-scanline ticks (exactly enough
accumulated cycles to reach scanline 241) set VBlank-status and raise
the interrupt-request flag, which none of the earlier calls had
raised (raised exactly once for the frame); once the flag is
consumed, the twenty further full-scanline ticks through line 261
never raise it again, and the tick that reaches line 262 reports a
completed frame, resets the scanline counter to 0, clears
VBlank-status and forces the interrupt-request flag off. -/
theorem c2_vblank_nmi_timing (q : Ppu) (k : Nat)
    (hcy : q.cycles = 0) (hsc : q.scanline + (k + 1) = 241)
    (hctl : controlGenerateNmi q.control = true) (hnmi : q.nmi_interrupt = false) :
    (tickScan^[k + 1] q).scanline = 241
    ∧ statusVblank (tickScan^[k + 1] q).status = true
    ∧ (tickScan^[k + 1] q).nmi_interrupt = true
    ∧ (∀ j, j ≤ k → (tickScan^[j] q).nmi_interrupt = false)
    ∧ (∀ j, j ≤ 20 →
        (tickScan^[j] { tickScan^[k + 1] q with nmi_interrupt := false }).nmi_interrupt = false
        ∧ (tickScan^[j] { tickScan^[k + 1] q with nmi_interrupt := false }).scanline = 241 + j)
    ∧ ((tickScan^[20] { tickScan^[k + 1] q with nmi_interrupt := false }).tick 341).2 = true
    ∧ ((tickScan^[20] { tickScan^[k + 1] q with nmi_interrupt := false }).tick 341).1.scanline = 0
    ∧ statusVblank
        ((tickScan^[20] { tickScan^[k + 1] q with nmi_interrupt := false }).tick 341).1.status
        = false
    ∧ ((tickScan^[20] { tickScan^[k + 1] q with nmi_interrupt := false }).tick 341).1.nmi_interrupt
        = false := by
  obtain ⟨hsl, hvb, hni, hcy', _hbefore⟩ := reach_241 k q hcy hsc hctl hnmi
  have hq1c : ({ tickScan^[k + 1] q with nmi_interrupt := false } : Ppu).cycles = 0 := by
    simpa using hcy'
  have hq1s : ({ tickScan^[k + 1] q with nmi_interrupt := false } : Ppu).scanline = 241 := by
    simpa using hsl
  have hstay : ∀ j, j ≤ 20 →
      (tickScan^[j] { tickScan^[k + 1] q with nmi_interrupt := false }).scanline = 241 + j
      ∧ (tickScan^[j] { tickScan^[k + 1] q with nmi_interrupt := false }).nmi_interrupt = false
      ∧ (tickScan^[j] { tickScan^[k + 1] q with nmi_interrupt := false }).cycles = 0 := by
    intro j hj
    have := stay_clear j { tickScan^[k + 1] q with nmi_interrupt := false }
      hq1c (by omega) (by omega) (by simp)
    exact ⟨by rw [this.1, hq1s], this.2.1, this.2.2⟩
  have h20 := hstay 20 (by omega)
  have hreset := tick341_reset (tickScan^[20] { tickScan^[k + 1] q with nmi_interrupt := false })
    (by omega)
  refine ⟨hsl, hvb, hni, _hbefore, ?_, ?_, ?_, ?_, ?_⟩
  · intro j hj
    exact ⟨(hstay j hj).2.1, (hstay j hj).1⟩
  · rw [hreset]
  · rw [hreset]
  · rw [hreset]
    simp only [statusVblank, Nat.testBit_and, show Nat.testBit 127 7 = false from rfl,
      Bool.and_false]
  · rw [hreset]

/-- A PPU two scanlines below VBlank with NMI-enable set. -/
def ppu239 : Ppu := { ppu0 with control := 128, scanline := 239 }

set_option maxRecDepth 10000 in
/-- Witness for `c2_vblank_nmi_timing` at the concrete PPU `ppu239`
with two full-scanline ticks to reach line 241. -/
theorem c2_vblank_nmi_timing_witness :
    (tickScan^[2] ppu239).scanline = 241
    ∧ statusVblank (tickScan^[2] ppu239).status = true
    ∧ (tickScan^[2] ppu239).nmi_interrupt = true
    ∧ (∀ j, j ≤ 1 → (tickScan^[j] ppu239).nmi_interrupt = false)
    ∧ (∀ j, j ≤ 20 →
        (tickScan^[j] { tickScan^[2] ppu239 with nmi_interrupt := false }).nmi_interrupt = false
        ∧ (tickScan^[j] { tickScan^[2] ppu239 with nmi_interrupt := false }).scanline = 241 + j)
    ∧ ((tickScan^[20] { tickScan^[2] ppu239 with nmi_interrupt := false }).tick 341).2 = true
    ∧ ((tickScan^[20] { tickScan^[2] ppu239 with nmi_interrupt := false }).tick 341).1.scanline = 0
    ∧ statusVblank
        ((tickScan^[20] { tickScan^[2] ppu239 with nmi_interrupt := false }).tick 341).1.status
        = false
    ∧ ((tickScan^[20] { tickScan^[2] ppu239 with nmi_interrupt := false }).tick 341).1.nmi_interrupt
        = false :=
  c2_vblank_nmi_timing ppu239 1 rfl (by decide) (by decide) rfl

/-! ## C6: stack-pointer and program-counter arithmetic -/

set_option maxRecDepth 10000 in
/-- Bitwise or of the stack-page base `0x0100` with a byte-sized
stack pointer is plain addition. -/
lemma lor256 : ∀ s : Nat, s < 256 → 0x0100 ||| s = 0x0100 + s := by decide

/-- A console whose stack pointer sits at the top boundary 0xFF. -/
def consoleSpFF : Console := { console0 with cpu := { cpu0 with sp := 0xFF } }

/-- A console whose stack pointer sits at the bottom boundary 0x00. -/
def consoleSp00 : Console := { console0 with cpu := { cpu0 with sp := 0x00 } }

/-- A console whose program counter sits at 0xFFFF. -/
def consolePcFFFF : Console := { console0 with cpu := { cpu0 with pc := 0xFFFF } }

/-- The NOP instruction descriptor (src/instruction.rs). -/
def nopImplied : Instruction :=
  { opcode := 0xEA, operation := "NOP", addressing_mode := AddressingMode.None,
    bytes := 1, cycles := 2 }

/-- C6 fails as stated: a pull with the stack pointer at 0xFF fails
(`sp += 1` is a plain, overflow-checked u8 addition) instead of
wrapping the pointer to 0x00 as the claim requires. -/
theorem c6_counterexample : pull_stack_u8 consoleSpFF = none := rfl

/-- C6 (amended): stack pushes and pulls address the fixed stack page
`0x0100-0x01FF` and move the stack pointer by one, but the pointer
arithmetic is plain (overflow-checked) u8 arithmetic, not wrapping:
a pull at SP = 0xFF and a push at SP = 0x00 fail the access instead of
wrapping to 0x00 / 0xFF.  The per-instruction program-counter advance
is likewise checked rather than wrapping modulo 65536: `step` fails at
PC = 0xFFFF instead of continuing at PC = 0x0000. -/
theorem c6_sp_pc_checked (c : Console) (v : Nat) (ins : Instruction) :
    (c.cpu.sp = 0xFF → pull_stack_u8 c = none)
    ∧ (c.cpu.sp = 0x00 → push_stack_u8 c v = none)
    ∧ (c.cpu.sp ≤ 0xFE →
        pull_stack_u8 c = some (c.bus.cpu_ram (0x0100 + c.cpu.sp + 1),
          { c with cpu := { c.cpu with sp := c.cpu.sp + 1 } }))
    ∧ (1 ≤ c.cpu.sp → c.cpu.sp ≤ 0xFF →
        push_stack_u8 c v = some
          { c with
              cpu := { c.cpu with sp := c.cpu.sp - 1 }
              bus := { c.bus with cpu_ram := fun i =>
                        if i = 0x0100 + c.cpu.sp then v else c.bus.cpu_ram i } })
    ∧ (c.cpu.pc = 0xFFFF → step c ins = none) := by
  refine ⟨?_, ?_, ?_, ?_, ?_⟩
  · intro h
    simp [pull_stack_u8, h]
  · intro h
    simp [push_stack_u8, Console.write_u8, Bus.write_u8, h]
  · intro h
    have hm : (0x0100 + (c.cpu.sp + 1)) % 2048 = 0x0100 + c.cpu.sp + 1 := by omega
    simp only [pull_stack_u8, Console.read_u8, Bus.read_u8]
    rw [if_pos (show c.cpu.sp + 1 < 256 by omega)]
    rw [if_pos (show 0x0100 + (c.cpu.sp + 1) ≤ 0x1FFF by omega)]
    simp only [hm]
  · intro h1 h2
    have hm : (0x0100 + c.cpu.sp) % 2048 = 0x0100 + c.cpu.sp := by omega
    simp only [push_stack_u8, Console.write_u8, Bus.write_u8]
    rw [if_pos (show 0x0100 + c.cpu.sp ≤ 0x1FFF by omega)]
    simp only [hm]
    rw [if_pos (show (1 : Nat) ≤ c.cpu.sp from h1)]
  · intro h
    simp [step, h]

/-- Witness for `c6_sp_pc_checked` at concrete consoles: boundary
pulls and pushes fail, non-boundary ones succeed at the expected
addresses, and `step` fails at PC = 0xFFFF. -/
theorem c6_sp_pc_checked_witness :
    pull_stack_u8 consoleSpFF = none
    ∧ push_stack_u8 consoleSp00 0x42 = none
    ∧ pull_stack_u8 console0 = some (console0.bus.cpu_ram (0x0100 + console0.cpu.sp + 1),
        { console0 with cpu := { console0.cpu with sp := console0.cpu.sp + 1 } })
    ∧ push_stack_u8 console0 0x42 = some
        { console0 with
            cpu := { console0.cpu with sp := console0.cpu.sp - 1 }
            bus := { console0.bus with cpu_ram := fun i =>
                      if i = 0x0100 + console0.cpu.sp then 0x42 else console0.bus.cpu_ram i } }
    ∧ step consolePcFFFF nopImplied = none :=
  ⟨(c6_sp_pc_checked consoleSpFF 0x42 nopImplied).1 (by decide),
   (c6_sp_pc_checked consoleSp00 0x42 nopImplied).2.1 (by decide),
   (c6_sp_pc_checked console0 0x42 nopImplied).2.2.1 (by decide),
   (c6_sp_pc_checked console0 0x42 nopImplied).2.2.2.1 (by decide) (by decide),
   (c6_sp_pc_checked consolePcFFFF 0x42 nopImplied).2.2.2.2 (by decide)⟩

/-! ## C9: 16-bit stack round trip -/

/-- C9 (confirmed): for any 16-bit value and any starting stack
pointer whose two stack bytes stay inside the stack page (2 ≤ SP ≤
255, so neither the pointer arithmetic nor the addresses wrap), a
16-bit push followed by a 16-bit pull returns the same value, restores
every CPU register including the stack pointer, leaves RAM outside the
two touched stack bytes unchanged, and leaves the PPU untouched. -/
theorem c9_stack_roundtrip (c : Console) (v i : Nat)
    (hv : v < 65536) (h2 : 2 ≤ c.cpu.sp) (h255 : c.cpu.sp ≤ 255) :
    ((push_stack_u16 c v).bind pull_stack_u16).map Prod.fst = some v
    ∧ ((push_stack_u16 c v).bind pull_stack_u16).map (fun r => r.2.cpu) = some c.cpu
    ∧ (i ≠ 0x0100 + c.cpu.sp - 1 → i ≠ 0x0100 + c.cpu.sp →
        ((push_stack_u16 c v).bind pull_stack_u16).map (fun r => r.2.bus.cpu_ram i)
          = some (c.bus.cpu_ram i))
    ∧ ((push_stack_u16 c v).bind pull_stack_u16).map (fun r => r.2.bus.ppu)
        = some c.bus.ppu := by
  have hlor : (0x0100 ||| c.cpu.sp) = 0x0100 + c.cpu.sp := lor256 _ (by omega)
  have m1 : (0x0100 + c.cpu.sp - 1) % 2048 = 0x0100 + c.cpu.sp - 1 := by omega
  have m2 : (0x0100 + c.cpu.sp - 1 + 1) % 2048 = 0x0100 + c.cpu.sp := by omega
  have hpush : push_stack_u16 c v = some
      { c with
          cpu := { c.cpu with sp := c.cpu.sp - 2 }
          bus := { c.bus with cpu_ram := fun j =>
            if j = 0x0100 + c.cpu.sp then v / 256 % 256
            else if j = 0x0100 + c.cpu.sp - 1 then v % 256
            else c.bus.cpu_ram j } } := by
    have hA : (0x0100 + c.cpu.sp - 1 ≤ 0x1FFF) = True := eq_true (by omega)
    have hB : (0x0100 + c.cpu.sp - 1 + 1 < 65536) = True := eq_true (by omega)
    have hC : (0x0100 + c.cpu.sp - 1 + 1 ≤ 0x1FFF) = True := eq_true (by omega)
    have hD : ((2 : Nat) ≤ c.cpu.sp) = True := eq_true h2
    simp only [push_stack_u16, Console.write_u16, Bus.write_u16, Bus.write_u8, hlor,
      hA, hB, hC, hD, m1, m2, if_true]
  have hpull : pull_stack_u16
      { c with
          cpu := { c.cpu with sp := c.cpu.sp - 2 }
          bus := { c.bus with cpu_ram := fun j =>
            if j = 0x0100 + c.cpu.sp then v / 256 % 256
            else if j = 0x0100 + c.cpu.sp - 1 then v % 256
            else c.bus.cpu_ram j } } = some (v,
      { c with
          cpu := { c.cpu with sp := c.cpu.sp - 2 + 2 }
          bus := { c.bus with cpu_ram := fun j =>
            if j = 0x0100 + c.cpu.sp then v / 256 % 256
            else if j = 0x0100 + c.cpu.sp - 1 then v % 256
            else c.bus.cpu_ram j } }) := by
    have n1 : (0x0100 + (c.cpu.sp - 2 + 2) - 1) % 2048 = 0x0100 + c.cpu.sp - 1 := by omega
    have n2 : (0x0100 + (c.cpu.sp - 2 + 2) - 1 + 1) % 2048 = 0x0100 + c.cpu.sp := by omega
    have pA : (c.cpu.sp - 2 + 2 < 256) = True := eq_true (by omega)
    have pB : (0x0100 + (c.cpu.sp - 2 + 2) - 1 ≤ 0x1FFF) = True := eq_true (by omega)
    have pC : (0x0100 + (c.cpu.sp - 2 + 2) - 1 + 1 < 65536) = True := eq_true (by omega)
    have pD : (0x0100 + (c.cpu.sp - 2 + 2) - 1 + 1 ≤ 0x1FFF) = True := eq_true (by omega)
    have pE : (0x0100 + c.cpu.sp - 1 = 0x0100 + c.cpu.sp) = False := eq_false (by omega)
    have hval : v % 256 + 256 * (v / 256 % 256) = v := by omega
    simp only [pull_stack_u16, Console.read_u16, Bus.read_u16, Bus.read_u8, pA, pB, pC, pD,
      n1, n2, pE, if_true, if_false, eq_self_iff_true, hval]
  have hkey : (push_stack_u16 c v).bind pull_stack_u16 = some (v,
      { c with
          cpu := { c.cpu with sp := c.cpu.sp - 2 + 2 }
          bus := { c.bus with cpu_ram := fun j =>
            if j = 0x0100 + c.cpu.sp then v / 256 % 256
            else if j = 0x0100 + c.cpu.sp - 1 then v % 256
            else c.bus.cpu_ram j } }) := by
    rw [hpush]
    exact hpull
  refine ⟨?_, ?_, ?_, ?_⟩
  · rw [hkey]; rfl
  · rw [hkey]
    have e : c.cpu.sp - 2 + 2 = c.cpu.sp := by omega
    rw [e]
    rfl
  · intro hi1 hi2
    rw [hkey]
    simp [hi1, hi2]
    omega
  · rw [hkey]; rfl

/-- Witness for `c9_stack_roundtrip`: the power-on console (SP =
0xFD) pushing and pulling 0xBEEF. -/
theorem c9_stack_roundtrip_witness :
    ((push_stack_u16 console0 0xBEEF).bind pull_stack_u16).map Prod.fst = some 0xBEEF
    ∧ ((push_stack_u16 console0 0xBEEF).bind pull_stack_u16).map (fun r => r.2.cpu)
        = some console0.cpu
    ∧ (0 ≠ 0x0100 + console0.cpu.sp - 1 → 0 ≠ 0x0100 + console0.cpu.sp →
        ((push_stack_u16 console0 0xBEEF).bind pull_stack_u16).map (fun r => r.2.bus.cpu_ram 0)
          = some (console0.bus.cpu_ram 0))
    ∧ ((push_stack_u16 console0 0xBEEF).bind pull_stack_u16).map (fun r => r.2.bus.ppu)
        = some console0.bus.ppu :=
  c9_stack_roundtrip console0 0xBEEF 0 (by decide) (by decide) (by decide)

end Nes
